import Mathlib

/-!
Shallow embedding of the `android_log` crate (src/lib.rs): an adapter that
routes log records from the `log` facade (log 0.3) to Android's native
`__android_log_write` entry point.

Rust panics (from `unwrap`) are modelled by the `RustOutcome` type; the
observable per-record behaviour of `AndroidLogger::log` is modelled as a
trace of `Event`s (the formatter invocation and the native write call).
-/

/-- The facade's severity levels (`log::LogLevel`), with the crate's numeric
discriminants given by `LogLevel.toNat` (`Error = 1` up to `Trace = 5`;
a smaller discriminant means more severe). -/
inductive LogLevel
  | Error
  | Warn
  | Info
  | Debug
  | Trace
deriving DecidableEq, Fintype

/-- The numeric discriminant of a facade level in the `log` crate. -/
def LogLevel.toNat : LogLevel → Nat
  | .Error => 1
  | .Warn => 2
  | .Info => 3
  | .Debug => 4
  | .Trace => 5

/-- Modelled from the spec: the native priority taxonomy
(`android_liblog_sys::LogPriority`, an external collaborator). The numeric
codes (`LogPriority.toNat`, the value of `prio as _` in the native call)
follow Android's `android/log.h`: a larger code is more severe, i.e. lower
in verbosity rank; `VERBOSE` is the most verbose of the five used here. -/
inductive LogPriority
  | UNKNOWN
  | DEFAULT
  | VERBOSE
  | DEBUG
  | INFO
  | WARN
  | ERROR
  | FATAL
  | SILENT
deriving DecidableEq, Fintype

/-- The numeric code of a native priority (Android's `android/log.h`). -/
def LogPriority.toNat : LogPriority → Nat
  | .UNKNOWN => 0
  | .DEFAULT => 1
  | .VERBOSE => 2
  | .DEBUG => 3
  | .INFO => 4
  | .WARN => 5
  | .ERROR => 6
  | .FATAL => 7
  | .SILENT => 8

/-- True exactly when the string contains an embedded null byte (U+0000). -/
def hasNul (s : String) : Bool :=
  s.data.any (fun c => c.toNat == 0)

/-- Embeds `std::ffi::CString::new`: fails (`none`, Rust's `Err(NulError)`)
exactly when the input contains an embedded null byte; otherwise the text is
kept unchanged (null-termination is outside the value). -/
def CString.new (s : String) : Option String :=
  if hasNul s then none else some s

/-- Outcome of a Rust computation: a value, or a panic (here always the
panic of `unwrap` on a `NulError`). A panic is not a value the caller
receives; it unwinds through the caller. -/
inductive RustOutcome (α : Type)
  | ok (a : α)
  | panic
deriving DecidableEq

/-- Maps over the value of a non-panicking outcome. -/
def RustOutcome.map {α β : Type} (f : α → β) : RustOutcome α → RustOutcome β
  | .ok a => .ok (f a)
  | .panic => .panic

/-- A facade log record as consumed by `AndroidLogger::log`: severity level,
`target()`, `location().module_path()`, and the rendered `args()` message. -/
structure LogRecord where
  level : LogLevel
  target : String
  modulePath : String
  args : String
deriving DecidableEq

/-- Facade metadata (`record.metadata()`): level and target. -/
structure LogMetadata where
  level : LogLevel
  target : String
deriving DecidableEq

/-- Embeds `record.metadata()`. -/
def LogRecord.metadata (r : LogRecord) : LogMetadata :=
  ⟨r.level, r.target⟩

/-- Embeds the `AndroidLogger` struct: a tag (the content of the `CString`,
guaranteed null-free at construction) and the boxed formatter closure. -/
structure AndroidLogger where
  tag : String
  format : LogRecord → String

/-- Embeds the `LogBuilder` struct: same fields, accumulated before `build`. -/
structure LogBuilder where
  tag : String
  format : LogRecord → String

/-- The default formatter installed by `LogBuilder::new`:
`format!("{}: {}", record.location().module_path(), record.args())`. -/
def defaultFormat (r : LogRecord) : String :=
  r.modulePath ++ ": " ++ r.args

/-- Embeds `LogBuilder::new`: `CString::new(tag.into()).unwrap()` panics when
the tag holds an embedded null byte (there is no typed error channel in the
Rust signature, which returns `LogBuilder` directly); otherwise a builder
with the tag and the default formatter. -/
def LogBuilder.new (tag : String) : RustOutcome LogBuilder :=
  match CString.new tag with
  | none => .panic
  | some t => .ok ⟨t, defaultFormat⟩

/-- Embeds `LogBuilder::format` (the struct field is itself called `format`,
so the setter is named `setFormat` here): replaces the stored formatter and
returns the builder for chaining. -/
def LogBuilder.setFormat (b : LogBuilder) (f : LogRecord → String) : LogBuilder :=
  { b with format := f }

/-- Embeds `LogBuilder::build`: moves the accumulated fields into a logger. -/
def LogBuilder.build (b : LogBuilder) : AndroidLogger :=
  ⟨b.tag, b.format⟩

/-- Embeds `AndroidLogger::new`, which is `LogBuilder::new(tag).build()`
(a panic in `LogBuilder::new` propagates). -/
def AndroidLogger.new (tag : String) : RustOutcome AndroidLogger :=
  RustOutcome.map LogBuilder.build (LogBuilder.new tag)

/-- The severity mapping applied by `AndroidLogger::log`: the `match` on
`record.level()` in src/lib.rs. -/
def levelToPriority : LogLevel → LogPriority
  | .Error => .ERROR
  | .Warn => .WARN
  | .Info => .INFO
  | .Debug => .DEBUG
  | .Trace => .VERBOSE

/-- Embeds `AndroidLogger::enabled`: a pure function, always `true`. -/
def AndroidLogger.enabled (_l : AndroidLogger) (_m : LogMetadata) : Bool :=
  true

/-- The observable events of one `log` call: the stored formatter running on
the record, and the native `__android_log_write(prio, tag, msg)` call. -/
inductive Event
  | formatterCall (r : LogRecord)
  | nativeWrite (prio : Nat) (tag : String) (msg : String)
deriving DecidableEq

/-- Embeds `AndroidLogger::log`: bail out when not enabled; run the formatter
once; `CString::new(...).unwrap()` panics on an embedded null byte in the
rendered message (after the formatter already ran, before any write);
otherwise map the level through `levelToPriority` and perform the single
native write with `(prio as _, tag, message)`. -/
def AndroidLogger.log (l : AndroidLogger) (r : LogRecord) :
    RustOutcome Unit × List Event :=
  if !(l.enabled r.metadata) then (.ok (), [])
  else
    match CString.new (l.format r) with
    | none => (.panic, [.formatterCall r])
    | some msg =>
        (.ok (), [.formatterCall r,
                  .nativeWrite (levelToPriority r.level).toNat l.tag msg])

/-- The facade's opaque registration error (`log::SetLoggerError`, the
"AlreadyInitialized" failure). -/
inductive SetLoggerError
  | mk
deriving DecidableEq

/-- The facade's maximum-severity filter (`log::LogLevelFilter`),
`Off = 0` up to `Trace = 5`. -/
inductive LogLevelFilter
  | Off
  | Error
  | Warn
  | Info
  | Debug
  | Trace
deriving DecidableEq, Fintype

/-- The numeric discriminant of a filter value in the `log` crate. -/
def LogLevelFilter.toNat : LogLevelFilter → Nat
  | .Off => 0
  | .Error => 1
  | .Warn => 2
  | .Info => 3
  | .Debug => 4
  | .Trace => 5

/-- `LogLevelFilter::max()` of the facade: the most permissive filter. -/
def LogLevelFilter.max : LogLevelFilter :=
  .Trace

/-- A filter lets a record through exactly when the record's level does not
exceed the filter (the facade's threshold check). -/
def LogLevelFilter.allows (f : LogLevelFilter) (lvl : LogLevel) : Bool :=
  decide (lvl.toNat ≤ f.toNat)

/-- The process-wide registration state: the installed global logger (if
any) and the global maximum-severity threshold. -/
structure GlobalState where
  logger : Option AndroidLogger
  maxLevel : LogLevelFilter

/-- Modelled from the spec: the facade's one-shot process-wide registration
(`log::set_logger`, an external collaborator per the spec's external
interfaces). It may succeed exactly once per process: when a logger is
already installed it fails with `SetLoggerError` and leaves the state — the
installed logger and the threshold — unchanged (the closure is not run);
on the first call the supplied closure picks the new threshold and produces
the logger to install. -/
def set_logger (st : GlobalState)
    (make_logger : LogLevelFilter → LogLevelFilter × AndroidLogger) :
    Except SetLoggerError Unit × GlobalState :=
  match st.logger with
  | some _ => (.error .mk, st)
  | none =>
      let p := make_logger st.maxLevel
      (.ok (), { logger := some p.2, maxLevel := p.1 })

/-- Embeds `AndroidLogger::init`: `log::set_logger` with the closure
`|max_level| { max_level.set(LogLevelFilter::max()); Box::new(self) }`. -/
def AndroidLogger.init (l : AndroidLogger) (st : GlobalState) :
    Except SetLoggerError Unit × GlobalState :=
  set_logger st (fun _ => (LogLevelFilter.max, l))

/-- Runs a stateful continuation after a possibly-panicking construction:
a panic aborts the whole call with the state unchanged. -/
def RustOutcome.run {α β : Type} (x : RustOutcome α)
    (k : α → β × GlobalState) (st : GlobalState) :
    RustOutcome β × GlobalState :=
  match x with
  | .panic => (.panic, st)
  | .ok a => (.ok (k a).1, (k a).2)

/-- Embeds the free function `init(tag)`, which is
`AndroidLogger::new(tag).init()`. -/
def init (tag : String) (st : GlobalState) :
    RustOutcome (Except SetLoggerError Unit) × GlobalState :=
  RustOutcome.run (AndroidLogger.new tag) (fun l => l.init st) st

/-- Embeds `LogBuilder::init`, which is `self.build().init()`. -/
def LogBuilder.init (b : LogBuilder) (st : GlobalState) :
    Except SetLoggerError Unit × GlobalState :=
  b.build.init st

/-- Concrete record for the end-to-end scenario: level Warn, target and
module path "core::net", message "retrying connection". -/
def rec4 : LogRecord :=
  ⟨.Warn, "core::net", "core::net", "retrying connection"⟩

/-- Concrete record whose message embeds a null byte. -/
def rec2 : LogRecord :=
  ⟨.Info, "app", "app", "bad\x00msg"⟩

/-- Concrete record for the custom-formatter scenarios. -/
def rec9 : LogRecord :=
  ⟨.Debug, "app", "app", "hello"⟩

/-- Concrete record with module path "app::mod" and message "hello". -/
def rec5 : LogRecord :=
  ⟨.Info, "app::mod", "app::mod", "hello"⟩

/-- Claim C1: the severity mapping applied by `AndroidLogger::log` is exactly
the fixed table Error→ERROR, Warn→WARN, Info→INFO, Debug→DEBUG,
Trace→VERBOSE; it is total on the five facade levels (a Lean function),
injective, surjective onto those five native priorities, and
order-preserving: the facade ordering Error > Warn > Info > Debug > Trace
(smaller facade discriminant = more severe) corresponds to a monotonically
non-increasing verbosity rank — equivalently a non-decreasing native numeric
code — in the native ordering. -/
theorem levelToPriority_table_bijective_monotone :
    (levelToPriority .Error = .ERROR ∧ levelToPriority .Warn = .WARN ∧
     levelToPriority .Info = .INFO ∧ levelToPriority .Debug = .DEBUG ∧
     levelToPriority .Trace = .VERBOSE)
    ∧ (∀ a b : LogLevel, levelToPriority a = levelToPriority b → a = b)
    ∧ (∀ p : LogPriority,
        p ∈ ([.ERROR, .WARN, .INFO, .DEBUG, .VERBOSE] : List LogPriority) →
          ∃ a : LogLevel, levelToPriority a = p)
    ∧ (∀ a b : LogLevel,
        a.toNat ≤ b.toNat ↔
          (levelToPriority b).toNat ≤ (levelToPriority a).toNat) := by
  decide

/-- Claim C2, counterexample: for the concrete logger built from tag "T" with
the default formatter, a record whose rendered message embeds a null byte
makes `log` panic (the `unwrap` on `CString::new`): the outcome is `panic`,
not `ok ()`, so the encoding failure is not handled internally — it escapes
to the caller as a panic. (The trace also shows no native write occurred.) -/
theorem log_nul_message_panics_cex :
    RustOutcome.map (fun l => l.log rec2) (AndroidLogger.new "T")
        = .ok (.panic, [.formatterCall rec2])
    ∧ RustOutcome.map (fun l => (l.log rec2).1) (AndroidLogger.new "T")
        ≠ .ok (.ok ()) := by
  exact ⟨rfl, by decide⟩

/-- Claim C2, amended: for every logger and every record whose rendered
message contains an embedded null byte, `AndroidLogger::log` panics in the
`unwrap` of `CString::new` — the encoding failure propagates to the caller
as a panic rather than being handled internally — and no native write
occurs, so the message is indeed never silently truncated. -/
theorem log_nul_message_panics (l : AndroidLogger) (r : LogRecord)
    (h : hasNul (l.format r) = true) :
    l.log r = (.panic, [.formatterCall r]) := by
  simp [AndroidLogger.log, AndroidLogger.enabled, CString.new, h]

/-- Witness for the amended C2 at a concrete logger and record. -/
theorem log_nul_message_panics_witness :
    hasNul ((⟨"T", defaultFormat⟩ : AndroidLogger).format rec2) = true
    ∧ (⟨"T", defaultFormat⟩ : AndroidLogger).log rec2
        = (.panic, [.formatterCall rec2]) :=
  ⟨rfl, log_nul_message_panics ⟨"T", defaultFormat⟩ rec2 rfl⟩

/-- Claim C3, counterexample: constructing a builder (or logger, or calling
the free `init`) with the null-embedding tag "a\x00b" panics in the `unwrap`
of `CString::new` — the outcome is `panic`, not a typed `InvalidTag` result
the caller receives (the Rust signatures have no error channel). -/
theorem builder_new_nul_tag_panics_cex :
    LogBuilder.new "a\x00b" = .panic
    ∧ AndroidLogger.new "a\x00b" = .panic
    ∧ init "a\x00b" ⟨none, .Off⟩ = (.panic, ⟨none, .Off⟩) :=
  ⟨rfl, rfl, rfl⟩

/-- Claim C3, amended: for every tag containing a null byte, construction
(`LogBuilder::new`, hence `AndroidLogger::new` and the free `init`) fails at
construction time, before any record is ever logged and before any global
installation (the state is unchanged) — but the failure is a panic from
`unwrap`, not a typed `InvalidTag` result returned to the caller. -/
theorem builder_new_nul_tag_panics (tag : String) (h : hasNul tag = true) :
    LogBuilder.new tag = .panic
    ∧ AndroidLogger.new tag = .panic
    ∧ ∀ st : GlobalState, init tag st = (.panic, st) := by
  have h1 : LogBuilder.new tag = .panic := by
    simp [LogBuilder.new, CString.new, h]
  refine ⟨h1, ?_, ?_⟩
  · simp [AndroidLogger.new, h1, RustOutcome.map]
  · intro st
    simp [init, AndroidLogger.new, h1, RustOutcome.map, RustOutcome.run]

/-- Witness for the amended C3 at the concrete tag "a\x00b". -/
theorem builder_new_nul_tag_panics_witness :
    hasNul "a\x00b" = true ∧ AndroidLogger.new "a\x00b" = .panic :=
  ⟨rfl, (builder_new_nul_tag_panics "a\x00b" rfl).2.1⟩

/-- Claim C4: with tag "MyApp" and the default formatter, logging the record
{level = Warn, target/module path = "core::net", message = "retrying
connection"} produces exactly one native write, with priority code
`WARN` (5), tag "MyApp", and message "core::net: retrying connection". -/
theorem log_end_to_end_myapp :
    RustOutcome.map (fun l => l.log rec4) (AndroidLogger.new "MyApp")
      = .ok (.ok (), [.formatterCall rec4,
          .nativeWrite LogPriority.WARN.toNat "MyApp"
            "core::net: retrying connection"]) := by
  rfl

/-- Claim C5: every logger obtained from `LogBuilder::new(tag).build()` with
no formatter override renders any record as `"<module_path>: <message>"`. -/
theorem default_format_renders (tag : String) (b : LogBuilder) (r : LogRecord)
    (h : LogBuilder.new tag = .ok b) :
    (b.build).format r = r.modulePath ++ ": " ++ r.args := by
  unfold LogBuilder.new at h
  cases hc : CString.new tag with
  | none => rw [hc] at h; cases h
  | some t =>
      rw [hc] at h
      injection h with h2
      subst h2
      rfl

/-- Witness for C5: the builder for tag "T", applied to the record with
module path "app::mod" and message "hello", renders "app::mod: hello". -/
theorem default_format_renders_witness :
    LogBuilder.new "T" = .ok ⟨"T", defaultFormat⟩
    ∧ ((⟨"T", defaultFormat⟩ : LogBuilder).build).format rec5
        = rec5.modulePath ++ ": " ++ rec5.args
    ∧ ((⟨"T", defaultFormat⟩ : LogBuilder).build).format rec5
        = "app::mod: hello" :=
  ⟨rfl, default_format_renders "T" ⟨"T", defaultFormat⟩ rec5 rfl, rfl⟩

/-- Claim C6: when a global logger is already installed, a subsequent install
attempt via `AndroidLogger::init` fails with the facade's registration error
(`AlreadyInitialized`) and the registration state is unchanged — the first
installed logger remains the active global logger. -/
theorem init_already_initialized (l l0 : AndroidLogger) (st : GlobalState)
    (h : st.logger = some l0) :
    l.init st = (.error .mk, st) ∧ (l.init st).2.logger = some l0 := by
  obtain ⟨lg, ml⟩ := st
  change lg = some l0 at h
  subst h
  exact ⟨rfl, rfl⟩

/-- Witness for C6: with a first logger (tag "A") already installed, a second
install attempt (tag "B") fails and leaves the state unchanged. -/
theorem init_already_initialized_witness :
    (⟨some ⟨"A", defaultFormat⟩, .Trace⟩ : GlobalState).logger
        = some ⟨"A", defaultFormat⟩
    ∧ (⟨"B", defaultFormat⟩ : AndroidLogger).init
          ⟨some ⟨"A", defaultFormat⟩, .Trace⟩
        = (.error .mk, ⟨some ⟨"A", defaultFormat⟩, .Trace⟩) :=
  ⟨rfl,
   (init_already_initialized ⟨"B", defaultFormat⟩ ⟨"A", defaultFormat⟩
      ⟨some ⟨"A", defaultFormat⟩, .Trace⟩ rfl).1⟩

/-- Claim C7: on the first install in the process, `AndroidLogger::init`
succeeds, registers the logger as the single global sink, and sets the global
maximum-severity threshold to `LogLevelFilter::max()`, which allows every
facade level (no record is filtered out by the threshold). -/
theorem init_first_install (l : AndroidLogger) (st : GlobalState)
    (h : st.logger = none) :
    l.init st = (.ok (), ⟨some l, LogLevelFilter.max⟩)
    ∧ ∀ lvl : LogLevel,
        LogLevelFilter.allows (l.init st).2.maxLevel lvl = true := by
  obtain ⟨lg, ml⟩ := st
  change lg = none at h
  subst h
  refine ⟨rfl, ?_⟩
  intro lvl
  cases lvl <;> rfl

/-- Witness for C7: first install of the logger with tag "T" succeeds and
installs it with the most permissive threshold. -/
theorem init_first_install_witness :
    (⟨none, .Off⟩ : GlobalState).logger = none
    ∧ (⟨"T", defaultFormat⟩ : AndroidLogger).init ⟨none, .Off⟩
        = (.ok (), ⟨some ⟨"T", defaultFormat⟩, LogLevelFilter.max⟩) :=
  ⟨rfl, (init_first_install ⟨"T", defaultFormat⟩ ⟨none, .Off⟩ rfl).1⟩

/-- Claim C8: `AndroidLogger::enabled` returns `true` for every logger and
every metadata value; being a pure function of its arguments in this
embedding (the Rust body reads no state and writes none), it mutates nothing
and any number of repeated calls with the same metadata return the same
boolean, namely `true`. -/
theorem enabled_always_true (l : AndroidLogger) (m : LogMetadata) :
    l.enabled m = true :=
  rfl

/-- Claim C9, counterexample: a custom formatter whose output embeds a null
byte is invoked by `log`, but its output never reaches the native write —
`log` panics after the formatter call and the trace contains no
`nativeWrite` event — refuting, as universally stated, that the string the
formatter produces is the message passed to the native write call. -/
theorem custom_formatter_nul_no_write_cex :
    RustOutcome.map
        (fun b => ((b.setFormat (fun _ => "x\x00y")).build).log rec9)
        (LogBuilder.new "T")
      = .ok (.panic, [.formatterCall rec9]) := by
  rfl

/-- Claim C9, amended: a formatter `f` installed via the builder's format
operation is invoked exactly once per `log` call and, provided its output
contains no embedded null byte, that output — not the default
`"<module_path>: <message>"` rendering — is the message passed to the single
native write call; when the output does embed a null byte, `log` panics
after the single formatter invocation and no write occurs. -/
theorem custom_formatter_once_reaches_write (b : LogBuilder)
    (f : LogRecord → String) (r : LogRecord) (h : hasNul (f r) = false) :
    ((b.setFormat f).build).log r
      = (.ok (), [.formatterCall r,
          .nativeWrite (levelToPriority r.level).toNat b.tag (f r)]) := by
  simp [LogBuilder.setFormat, LogBuilder.build, AndroidLogger.log,
        AndroidLogger.enabled, CString.new, h]

/-- Witness for the amended C9: the constant formatter "custom" on the
builder with tag "T" is called once and its output is written. -/
theorem custom_formatter_once_reaches_write_witness :
    hasNul ((fun _ : LogRecord => "custom") rec9) = false
    ∧ (((⟨"T", defaultFormat⟩ : LogBuilder).setFormat
          (fun _ => "custom")).build).log rec9
        = (.ok (), [.formatterCall rec9,
            .nativeWrite (levelToPriority rec9.level).toNat "T" "custom"]) :=
  ⟨rfl,
   custom_formatter_once_reaches_write ⟨"T", defaultFormat⟩
     (fun _ => "custom") rec9 rfl⟩

/-- Claim C10: the three construction/installation paths are equivalent for
every tag and every starting state: `AndroidLogger::new(tag)` is exactly
`LogBuilder::new(tag).build()` (same tag, same default formatter, same panic
behaviour), and the free `init(tag)`, `AndroidLogger::new(tag).init()` and
`LogBuilder::new(tag).init()` produce the same result and the same final
global state. -/
theorem construction_paths_equivalent (tag : String) (st : GlobalState) :
    AndroidLogger.new tag = RustOutcome.map LogBuilder.build (LogBuilder.new tag)
    ∧ init tag st
        = RustOutcome.run (AndroidLogger.new tag) (fun l => l.init st) st
    ∧ init tag st
        = RustOutcome.run (LogBuilder.new tag) (fun b => b.init st) st := by
  refine ⟨rfl, rfl, ?_⟩
  cases hb : LogBuilder.new tag <;>
    simp [init, AndroidLogger.new, hb, RustOutcome.map, RustOutcome.run,
          LogBuilder.init]
